import Mathlib

/-!
Shallow embedding of `message_ix/util/__init__.py` (functions `make_df`,
`_deprecated_make_df`, `expand_dims`) together with a model of the pandas
`DataFrame` dict-of-columns constructor, the `ChainMap` registry lookup,
Python keyword-argument merging, and the external scenario store consumed
through an explicit effect trace.
-/

namespace MessageIx

/-- Cell values appearing in parameter tables: strings, integers, or the
Python `None` / missing marker (what pandas `isna` detects). -/
inductive Val where
  | vstr (s : String)
  | vint (n : Int)
  | vnone
deriving DecidableEq, Repr

/-- A value supplied for one column: either a single scalar or a sequence of
per-row values.  Mirrors the scalar-vs-sequence distinction that
`pandas.api.types.is_scalar` draws on the Python side. -/
inductive ColData where
  | scalar (v : Val)
  | seq (vs : List Val)
deriving DecidableEq, Repr

/-- Model of `pandas.api.types.is_scalar`: `None` is a scalar, lists are not. -/
def is_scalar : ColData → Bool
  | .scalar _ => true
  | .seq _ => false

/-- One entry of a schema registry (`MESSAGE_ITEMS` / `MACRO_ITEMS`): the item
kind tag `ix_type`, the index sets, and the optional index names.  Source line
121 reads `info.get("idx_names", info["idx_sets"])`. -/
structure ItemInfo where
  ix_type : String
  idx_sets : List String
  idx_names : Option (List String)
deriving DecidableEq, Repr

/-- A schema registry is a mapping from parameter name to its `ItemInfo`;
modelled as an association list looked up with `List.lookup`. -/
abbrev Registry := List (String × ItemInfo)

/-- Model of `ChainMap(MESSAGE_ITEMS, MACRO_ITEMS)[name]` (source line 113):
the primary registry is consulted first, the secondary is the fallback. -/
def chainMapLookup (primary secondary : Registry) (name : String) :
    Option ItemInfo :=
  (List.lookup name primary).orElse fun _ => List.lookup name secondary

/-- Python exceptions that the embedded code can raise. -/
inductive PyError where
  | valueError (msg : String)
  | keyError (key : String)
  | typeError (msg : String)
  | assertionError (msg : String)
deriving DecidableEq, Repr

/-- A pandas data frame, column-oriented: an ordered list of named columns,
each holding the per-row values top to bottom. -/
structure DataFrame where
  cols : List (String × List Val)
deriving DecidableEq, Repr

/-- Lengths of the sequence-valued entries among the constructor inputs;
scalar entries impose no length. -/
def seqLengths (data : List (String × ColData)) : List Nat :=
  data.filterMap fun p =>
    match p.2 with
    | .seq vs => some vs.length
    | .scalar _ => none

/-- Materialize one column at `n` rows: a scalar is broadcast (repeated) to
every row, a sequence is used positionally. -/
def broadcastCol (cd : ColData) (n : Nat) : List Val :=
  match cd with
  | .scalar v => List.replicate n v
  | .seq vs => vs

/-- Model of the `pd.DataFrame(data=..., index=...)` dict-of-columns
constructor as `make_df` uses it (source line 146): all sequence inputs must
share one length, scalars are broadcast to that length; with only scalar
inputs an explicit index is required and sets the row count. -/
def pdDataFrame (data : List (String × ColData)) (index : Option (List Nat)) :
    Except PyError DataFrame :=
  match seqLengths data, index with
  | [], none =>
      .error (.valueError "If using all scalar values, you must pass an index")
  | [], some idx =>
      .ok ⟨data.map fun p => (p.1, broadcastCol p.2 idx.length)⟩
  | L :: rest, idxOpt =>
      if rest.all fun l => l = L then
        match idxOpt with
        | none => .ok ⟨data.map fun p => (p.1, broadcastCol p.2 L)⟩
        | some idx =>
            if idx.length = L then
              .ok ⟨data.map fun p => (p.1, broadcastCol p.2 L)⟩
            else .error (.valueError "Length mismatch between index and data")
      else .error (.valueError "All arrays must be of the same length")

/-- Index names of a parameter: source line 121,
`info.get("idx_names", info["idx_sets"])`. -/
def idxNames (info : ItemInfo) : List String :=
  info.idx_names.getD info.idx_sets

/-- Columns of the resulting data frame: source line 124,
`list(idx_names) + ["value", "unit"]`. -/
def dfColumns (info : ItemInfo) : List String :=
  idxNames info ++ ["value", "unit"]

/-- Source line 127, `ChainMap(data, defaultdict(lambda: None))[column]`:
the caller-supplied value when present, otherwise the scalar `None`. -/
def dataGet (data : List (String × ColData)) (c : String) : ColData :=
  (List.lookup c data).getD (.scalar .vnone)

/-- The `args["data"]` dict built by the loop at source lines 135-139: one
entry per column, in column order. -/
def argsData (info : ItemInfo) (data : List (String × ColData)) :
    List (String × ColData) :=
  (dfColumns info).map fun c => (c, dataGet data c)

/-- The `all_scalar` flag accumulated at source line 137: true iff every
column value (defaults included) is a scalar. -/
def allScalar (info : ItemInfo) (data : List (String × ColData)) : Bool :=
  (dfColumns info).all fun c => is_scalar (dataGet data c)

/-- The `index` constructor argument: `[0]` when all values are scalar
(source lines 141-144), absent otherwise. -/
def argsIndex (info : ItemInfo) (data : List (String × ColData)) :
    Option (List Nat) :=
  if allScalar info data then some [0] else none

/-- The string-name path of `make_df` (source lines 111-146): resolve `name`
through the chained registries, reject non-`par` items, then hand the
assembled columns to the data-frame constructor. -/
def makeDfByName (MESSAGE_ITEMS MACRO_ITEMS : Registry) (name : String)
    (data : List (String × ColData)) : Except PyError DataFrame :=
  match chainMapLookup MESSAGE_ITEMS MACRO_ITEMS name with
  | none => .error (.valueError (name ++ " is not a MESSAGE or MACRO parameter"))
  | some info =>
      if info.ix_type = "par" then
        pdDataFrame (argsData info data) (argsIndex info data)
      else
        .error (.valueError (name ++ " is " ++ info.ix_type ++ ", not par"))

/-- Observable side effects of the embedded functions: the deprecation
warning, and the scenario-store operations of `expand_dims`.  The store's
transactional scope (spec section 6: commit on normal exit, roll back on
error exit) is recorded by the begin/commit/rollback markers. -/
inductive Effect where
  | warn (msg : String)
  | readPar (name : String)
  | transactBegin (msg : String)
  | transactCommit
  | transactRollback
  | removePar (name : String)
  | initItems (name : String)
  | addPar (name : String)
deriving DecidableEq, Repr

/-- Model of `dict.__setitem__`: replace the value in place when the key is
present (keeping its position), append otherwise. -/
def dictSet (d : List (String × ColData)) (k : String) (v : ColData) :
    List (String × ColData) :=
  if (List.lookup k d).isSome then
    d.map fun p => if p.1 = k then (k, v) else p
  else d ++ [(k, v)]

/-- Model of `base.update(**kwargs)` (source line 193): set each keyword in
turn, so keyword values win on key collision. -/
def dictUpdate (base kwargs : List (String × ColData)) :
    List (String × ColData) :=
  kwargs.foldl (fun d p => dictSet d p.1 p.2) base

/-- The warning text emitted by `_deprecated_make_df` (source lines 184-188). -/
def deprecationMsg : String :=
  "make_df() with a mapping or pandas object. Use make_df(), DataFrame.from_dict(), and/or DataFrame.assign()."

/-- Model of `_deprecated_make_df(base, **kwargs)` for a mapping `base`
(source lines 149-194).  Returns the emitted effects, the state of the
caller's `base` object after the call, and the result.  The code deep-copies
`base` (line 190) before updating, so the update targets the copy and the
caller's object is returned unchanged. -/
def deprecatedMakeDf (base kwargs : List (String × ColData)) :
    List Effect × List (String × ColData) × Except PyError DataFrame :=
  let baseCopy := base
  let merged := dictUpdate baseCopy kwargs
  ([.warn deprecationMsg], base, pdDataFrame merged none)

/-- First positional argument of `make_df`: a parameter name, or — legacy
path (source line 108) — a mapping to extend. -/
inductive MakeDfArg where
  | byName (name : String)
  | byBase (base : List (String × ColData))
deriving DecidableEq, Repr

/-- Model of `make_df` (source lines 14-146) with its effect trace: the
legacy dispatch at line 108, then the string-name path. -/
def make_df (MESSAGE_ITEMS MACRO_ITEMS : Registry) (arg : MakeDfArg)
    (data : List (String × ColData)) :
    List Effect × Except PyError DataFrame :=
  match arg with
  | .byBase base =>
      let r := deprecatedMakeDf base data
      (r.1, r.2.2)
  | .byName name => ([], makeDfByName MESSAGE_ITEMS MACRO_ITEMS name data)

/-- Does the data frame contain any missing cell?  Source line 226,
`new_data.isna().any(axis=None)`. -/
def dfHasNa (df : DataFrame) : Bool :=
  df.cols.any fun p => p.2.any fun v => v = Val.vnone

/-- The stored data of a parameter, as returned by `scenario.par(name)`:
column name to per-row values. -/
abbrev StoredPar := List (String × List Val)

/-- The stored columns repackaged as keyword arguments: unpacking
`**scenario.par(name)` passes each column as a sequence value. -/
def storedKwargs (stored : StoredPar) : List (String × ColData) :=
  stored.map fun p => (p.1, .seq p.2)

/-- Model of `expand_dims(scenario, name, **data)` (source lines 197-234).
`stored` is what `scenario.par(name)` returns.  The call
`make_df(name, **scenario.par(name), **data)` (line 225) raises `TypeError`
when a keyword duplicates a stored column; the assertion at line 226 guards
completeness before the transaction; inside the transaction the parameter is
removed, re-initialized from `MESSAGE_ITEMS[name]` (a plain dict lookup that
raises `KeyError` when absent, line 231), and the expanded data added. -/
def expand_dims (MESSAGE_ITEMS MACRO_ITEMS : Registry) (stored : StoredPar)
    (name : String) (data : List (String × ColData)) :
    List Effect × Except PyError Unit :=
  let skw := storedKwargs stored
  match data.find? fun q => (List.lookup q.1 skw).isSome with
  | some q =>
      ([.readPar name],
        .error (.typeError
          ("make_df() got multiple values for keyword argument " ++ q.1)))
  | none =>
      match makeDfByName MESSAGE_ITEMS MACRO_ITEMS name (skw ++ data) with
      | .error e => ([.readPar name], .error e)
      | .ok new_data =>
          if dfHasNa new_data then
            ([.readPar name], .error (.assertionError "Expanded data are incomplete"))
          else
            match List.lookup name MESSAGE_ITEMS with
            | none =>
                ([.readPar name, .transactBegin ("expand_dims(" ++ name ++ ", …)"),
                  .removePar name, .transactRollback],
                  .error (.keyError name))
            | some _ =>
                ([.readPar name, .transactBegin ("expand_dims(" ++ name ++ ", …)"),
                  .removePar name, .initItems name, .addPar name,
                  .transactCommit],
                  .ok ())

/-! Concrete fixtures: a small schema registry pair and inputs used to
evaluate the definitions at specific points. -/

/-- A "par" schema with the single dimension "node". -/
def infoNode : ItemInfo := ⟨"par", ["node"], none⟩

/-- A schema whose kind tag is "var", hence not buildable. -/
def infoVar : ItemInfo := ⟨"var", ["x"], none⟩

/-- A primary registry holding "demand" (par) and "OBJ" (var). -/
def regMI : Registry := [("demand", infoNode), ("OBJ", infoVar)]

/-- A secondary registry holding "gdp_calibrate" and a conflicting entry for
"demand" so that precedence is observable. -/
def regMA : Registry := [("gdp_calibrate", infoNode), ("demand", infoVar)]

def data1 : List (String × ColData) :=
  [("node", .seq [.vstr "a", .vstr "b"]), ("value", .seq [.vint 1, .vint 2]),
   ("extra", .scalar (.vstr "x"))]

def df1 : DataFrame :=
  ⟨[("node", [.vstr "a", .vstr "b"]), ("value", [.vint 1, .vint 2]),
    ("unit", [.vnone, .vnone])]⟩

def data2s : List (String × ColData) :=
  [("node", .scalar (.vstr "a")), ("value", .scalar (.vint 5))]

def data2q : List (String × ColData) :=
  [("node", .seq [.vstr "a", .vstr "b"]), ("value", .scalar (.vint 5))]

def stored3 : StoredPar := [("node", [.vstr "A"]), ("value", [.vint 1])]

def df3 : DataFrame :=
  ⟨[("node", [.vstr "A"]), ("value", [.vint 1]), ("unit", [.vnone])]⟩

def stored4 : StoredPar :=
  [("node", [.vstr "A", .vstr "B"]), ("value", [.vint 1, .vint 2]),
   ("unit", [.vstr "u", .vstr "u"])]

def df4 : DataFrame :=
  ⟨[("node", [.vstr "A", .vstr "B"]), ("value", [.vint 1, .vint 2]),
    ("unit", [.vstr "u", .vstr "u"])]⟩

def base6 : List (String × ColData) :=
  [("year", .seq [.vint 2020, .vint 2021]), ("unit", .scalar (.vstr "y"))]

def kwargs6 : List (String × ColData) :=
  [("value", .scalar (.vint 1)), ("unit", .scalar (.vstr "-"))]

def data7 : List (String × ColData) :=
  [("node", .seq [.vstr "a"]), ("value", .seq [.vint 1, .vint 2])]

def stored9 : StoredPar := [("node", [.vstr "A"])]

def data9 : List (String × ColData) := [("node", .scalar (.vstr "B"))]

/-! Helper lemmas about association-list lookup and the constructor model. -/

theorem lookup_map_pair {β : Type} (f : String → β) (l : List String) (c : String) :
    List.lookup c (l.map fun x => (x, f x)) = if c ∈ l then some (f c) else none := by
  induction l with
  | nil => rfl
  | cons a l ih =>
      by_cases h : c = a
      · subst h
        simp [List.lookup_cons]
      · have hb : (c == a) = false := by simp [h]
        simp [List.lookup_cons, hb, ih, h]

theorem lookup_eq_none_of_not_mem {β : Type} {l : List (String × β)} {k : String}
    (h : k ∉ l.map Prod.fst) : List.lookup k l = none := by
  rw [List.lookup_eq_none_iff]
  intro p hp
  simp only [bne_iff_ne, ne_eq]
  intro hk
  exact h (List.mem_map.mpr ⟨p, hp, hk.symm⟩)

theorem pdDataFrame_ok_shape (data : List (String × ColData))
    (idx : Option (List Nat)) (df : DataFrame)
    (h : pdDataFrame data idx = .ok df) :
    ∃ n, df.cols = data.map fun p => (p.1, broadcastCol p.2 n) := by
  unfold pdDataFrame at h
  split at h
  · exact absurd h (by simp)
  · injection h with h
    subst h
    exact ⟨_, rfl⟩
  · split at h
    · split at h
      · injection h with h
        subst h
        exact ⟨_, rfl⟩
      · split at h
        · injection h with h
          subst h
          exact ⟨_, rfl⟩
        · exact absurd h (by simp)
    · exact absurd h (by simp)

theorem seqLen_none_iff (cd : ColData) :
    (match cd with
      | .seq vs => some vs.length
      | .scalar _ => none) = (none : Option Nat) ↔ is_scalar cd = true := by
  cases cd <;> simp [is_scalar]

theorem seqLengths_argsData_nil_iff (info : ItemInfo)
    (data : List (String × ColData)) :
    seqLengths (argsData info data) = [] ↔ allScalar info data = true := by
  rw [seqLengths, argsData, List.filterMap_map, List.filterMap_eq_nil_iff,
    allScalar, List.all_eq_true]
  constructor
  · intro h c hc
    exact (seqLen_none_iff (dataGet data c)).mp (h c hc)
  · intro h c hc
    exact (seqLen_none_iff (dataGet data c)).mpr (h c hc)

theorem mem_seqLengths_argsData (info : ItemInfo)
    (data : List (String × ColData)) (n : Nat) :
    n ∈ seqLengths (argsData info data) ↔
      ∃ c ∈ dfColumns info, ∃ vs, dataGet data c = .seq vs ∧ vs.length = n := by
  rw [seqLengths, argsData, List.filterMap_map]
  rw [List.mem_filterMap]
  constructor
  · rintro ⟨c, hc, hsome⟩
    simp only [Function.comp] at hsome
    cases hcd : dataGet data c with
    | scalar v => rw [hcd] at hsome; exact absurd hsome (by simp)
    | seq vs =>
        rw [hcd] at hsome
        simp only [Option.some.injEq] at hsome
        exact ⟨c, hc, vs, hcd, hsome⟩
  · rintro ⟨c, hc, vs, hcd, hlen⟩
    refine ⟨c, hc, ?_⟩
    simp only [Function.comp, hcd]
    simp [hlen]

theorem makeDfByName_eq_constructor (MI MA : Registry) (name : String)
    (info : ItemInfo) (data : List (String × ColData))
    (hinfo : chainMapLookup MI MA name = some info)
    (hpar : info.ix_type = "par") :
    makeDfByName MI MA name data =
      pdDataFrame (argsData info data) (argsIndex info data) := by
  unfold makeDfByName
  simp only [hinfo]
  rw [if_pos hpar]

theorem makeDfByName_ok_shape (MI MA : Registry) (name : String)
    (info : ItemInfo) (data : List (String × ColData)) (df : DataFrame)
    (hinfo : chainMapLookup MI MA name = some info)
    (hpar : info.ix_type = "par")
    (hok : makeDfByName MI MA name data = .ok df) :
    ∃ n, df.cols =
      (dfColumns info).map fun c => (c, broadcastCol (dataGet data c) n) := by
  rw [makeDfByName_eq_constructor MI MA name info data hinfo hpar] at hok
  obtain ⟨n, hcols⟩ := pdDataFrame_ok_shape _ _ _ hok
  refine ⟨n, ?_⟩
  rw [hcols, argsData, List.map_map]
  rfl

theorem lookup_map_replace_self (d : List (String × ColData)) (k : String)
    (v : ColData) :
    List.lookup k (d.map fun p => if p.1 = k then (k, v) else p) =
      if (List.lookup k d).isSome then some v else none := by
  induction d with
  | nil => simp
  | cons p d ih =>
      obtain ⟨a, b⟩ := p
      by_cases h : a = k
      · subst h
        simp [List.lookup_cons]
      · have hb : (k == a) = false := by
          simp only [beq_eq_false_iff_ne, ne_eq]
          exact fun e => h e.symm
        simp only [List.map_cons, if_neg h, List.lookup_cons, hb, ih]

theorem lookup_map_replace_ne (d : List (String × ColData)) (k k' : String)
    (v : ColData) (hne : k' ≠ k) :
    List.lookup k' (d.map fun p => if p.1 = k then (k, v) else p) =
      List.lookup k' d := by
  induction d with
  | nil => simp
  | cons p d ih =>
      obtain ⟨a, b⟩ := p
      by_cases h : a = k
      · subst h
        have hb : (k' == a) = false := by simp [hne]
        simp [List.lookup_cons, hb, ih]
      · by_cases h2 : k' = a
        · subst h2
          simp [List.lookup_cons, h]
        · have hb : (k' == a) = false := by simp [h2]
          simp [List.lookup_cons, h, hb, ih]

theorem lookup_dictSet_self (d : List (String × ColData)) (k : String)
    (v : ColData) : List.lookup k (dictSet d k v) = some v := by
  unfold dictSet
  by_cases h : (List.lookup k d).isSome
  · rw [if_pos h, lookup_map_replace_self, if_pos h]
  · rw [if_neg h, List.lookup_append]
    rw [Option.not_isSome_iff_eq_none.mp h]
    simp

theorem lookup_dictSet_ne (d : List (String × ColData)) (k k' : String)
    (v : ColData) (hne : k' ≠ k) :
    List.lookup k' (dictSet d k v) = List.lookup k' d := by
  unfold dictSet
  by_cases h : (List.lookup k d).isSome
  · rw [if_pos h, lookup_map_replace_ne _ _ _ _ hne]
  · rw [if_neg h, List.lookup_append]
    have hb : (k' == k) = false := by simp [hne]
    simp [List.lookup_cons, hb]

theorem lookup_dictUpdate (kwargs : List (String × ColData)) :
    ∀ (base : List (String × ColData)) (k : String),
      (kwargs.map Prod.fst).Nodup →
      List.lookup k (dictUpdate base kwargs) =
        (List.lookup k kwargs).or (List.lookup k base) := by
  induction kwargs with
  | nil =>
      intro base k _
      simp [dictUpdate]
  | cons q rest ih =>
      intro base k hnd
      obtain ⟨a, v⟩ := q
      simp only [List.map_cons, List.nodup_cons] at hnd
      obtain ⟨ha, hnd⟩ := hnd
      have hstep : dictUpdate base ((a, v) :: rest) =
          dictUpdate (dictSet base a v) rest := rfl
      rw [hstep, ih _ k hnd]
      by_cases h : k = a
      · subst h
        rw [lookup_eq_none_of_not_mem ha]
        simp [List.lookup_cons, lookup_dictSet_self]
      · have hb : (k == a) = false := by simp [h]
        rw [lookup_dictSet_ne _ _ _ _ h]
        simp [List.lookup_cons, hb]

theorem pdDataFrame_mismatch (data : List (String × ColData))
    (idx : Option (List Nat)) (L : Nat) (rest : List Nat)
    (hsl : seqLengths data = L :: rest)
    (hrest : rest.all (fun l => l = L) = false) :
    pdDataFrame data idx =
      .error (.valueError "All arrays must be of the same length") := by
  unfold pdDataFrame
  rw [hsl]
  have hcond : ¬ (rest.all (fun l => decide (l = L)) = true) := by
    rw [hrest]
    exact Bool.false_ne_true
  simp only [if_neg hcond]

/-! Claim theorems. -/

/-- C1: when `make_df` is called with a string parameter name that resolves
to a schema of kind "par" and returns a table, the table's columns are
exactly the schema's index names (defaulting to the index sets) in schema
order followed by "value" and "unit"; keys of the named inputs outside this
column set are ignored, and every column the caller did not supply is
present and filled with the `None` placeholder, which is neither the
integer zero nor the empty string. -/
theorem make_df_columns_exact (MI MA : Registry) (name : String)
    (info : ItemInfo) (data : List (String × ColData)) (df : DataFrame)
    (hinfo : chainMapLookup MI MA name = some info)
    (hpar : info.ix_type = "par")
    (hok : makeDfByName MI MA name data = .ok df) :
    df.cols.map Prod.fst = dfColumns info ∧
    (∀ c ∈ dfColumns info, List.lookup c data = none →
      ∃ vs, List.lookup c df.cols = some vs ∧ ∀ v ∈ vs, v = Val.vnone) ∧
    Val.vnone ≠ Val.vint 0 ∧ Val.vnone ≠ Val.vstr "" := by
  obtain ⟨n, hcols⟩ := makeDfByName_ok_shape MI MA name info data df hinfo hpar hok
  refine ⟨?_, ?_, by simp, by simp⟩
  · rw [hcols, List.map_map]
    exact List.map_id _
  · intro c hc hnone
    rw [hcols, lookup_map_pair, if_pos hc]
    refine ⟨_, rfl, ?_⟩
    intro v hv
    rw [dataGet, hnone] at hv
    simp only [Option.getD_none, broadcastCol] at hv
    exact List.eq_of_mem_replicate hv

/-- C2: for a valid "par" name, if every value used for a column (defaults
included) is a scalar the result has exactly one row holding each scalar or
the placeholder; if some used value is a sequence and every sequence among
the used values has length `L`, the result has exactly `L` rows, sequences
are used positionally, and scalars (the placeholder included) are repeated
in all `L` rows. -/
theorem make_df_broadcast (MI MA : Registry) (name : String)
    (info : ItemInfo) (data : List (String × ColData))
    (hinfo : chainMapLookup MI MA name = some info)
    (hpar : info.ix_type = "par") :
    ((∀ c ∈ dfColumns info, is_scalar (dataGet data c) = true) →
      makeDfByName MI MA name data =
        .ok ⟨(dfColumns info).map fun c => (c, broadcastCol (dataGet data c) 1)⟩) ∧
    (∀ L : Nat,
      (∃ c ∈ dfColumns info, is_scalar (dataGet data c) = false) →
      (∀ c ∈ dfColumns info, ∀ vs, dataGet data c = .seq vs → vs.length = L) →
      makeDfByName MI MA name data =
        .ok ⟨(dfColumns info).map fun c => (c, broadcastCol (dataGet data c) L)⟩ ∧
      ∀ c ∈ dfColumns info, (broadcastCol (dataGet data c) L).length = L) := by
  rw [makeDfByName_eq_constructor MI MA name info data hinfo hpar]
  constructor
  · intro hsc
    have hall : allScalar info data = true := by
      rw [allScalar, List.all_eq_true]
      exact hsc
    have hnil : seqLengths (argsData info data) = [] :=
      (seqLengths_argsData_nil_iff info data).mpr hall
    rw [argsIndex, if_pos hall]
    unfold pdDataFrame
    rw [hnil]
    simp only [List.length_cons, List.length_nil]
    rw [argsData, List.map_map]
    rfl
  · intro L hex hlen
    have hall : allScalar info data = false := by
      rw [allScalar]
      obtain ⟨c, hc, hns⟩ := hex
      by_contra hcon
      have := (List.all_eq_true.mp (Bool.of_not_eq_false hcon)) c hc
      rw [hns] at this
      exact Bool.false_ne_true this
    have hidx : argsIndex info data = none := by
      rw [argsIndex, hall]
      rfl
    have hmem : ∀ n ∈ seqLengths (argsData info data), n = L := by
      intro n hn
      obtain ⟨c, hc, vs, hcd, hl⟩ := (mem_seqLengths_argsData info data n).mp hn
      rw [← hl]
      exact hlen c hc vs hcd
    have hrows : ∀ c ∈ dfColumns info,
        (broadcastCol (dataGet data c) L).length = L := by
      intro c hc
      cases hcd : dataGet data c with
      | scalar v => simp [broadcastCol]
      | seq vs =>
          simp only [broadcastCol]
          exact hlen c hc vs hcd
    refine ⟨?_, hrows⟩
    cases hsl : seqLengths (argsData info data) with
    | nil =>
        exact absurd ((seqLengths_argsData_nil_iff info data).mp hsl)
          (by rw [hall]; exact Bool.false_ne_true)
    | cons L0 rest =>
        have hL0 : L0 = L := hmem L0 (by rw [hsl]; exact List.mem_cons_self L0 rest)
        have hrest : rest.all (fun l => l = L0) = true := by
          rw [List.all_eq_true]
          intro x hx
          have : x = L := hmem x (by rw [hsl]; exact List.mem_cons_of_mem L0 hx)
          simp [this, hL0]
        rw [hidx]
        unfold pdDataFrame
        rw [hsl]
        simp only [hrest, if_true]
        rw [hL0, argsData, List.map_map]
        rfl

/-- C5: `make_df` with a string name looks the name up in the combined
registry with `MESSAGE_ITEMS` taking precedence over `MACRO_ITEMS`; a name
absent from both registries yields the "not found" `ValueError` with no
partial work, and a resolved schema whose kind tag is not "par" yields the
"wrong kind" `ValueError`. -/
theorem make_df_registry_resolution (MI MA : Registry) (name : String)
    (data : List (String × ColData)) :
    (∀ info, List.lookup name MI = some info →
      chainMapLookup MI MA name = some info) ∧
    (List.lookup name MI = none →
      chainMapLookup MI MA name = List.lookup name MA) ∧
    (chainMapLookup MI MA name = none →
      makeDfByName MI MA name data =
        .error (.valueError (name ++ " is not a MESSAGE or MACRO parameter"))) ∧
    (∀ info, chainMapLookup MI MA name = some info → info.ix_type ≠ "par" →
      makeDfByName MI MA name data =
        .error (.valueError (name ++ " is " ++ info.ix_type ++ ", not par"))) := by
  refine ⟨?_, ?_, ?_, ?_⟩
  · intro info h
    rw [chainMapLookup, h]
    rfl
  · intro h
    rw [chainMapLookup, h]
    rfl
  · intro h
    unfold makeDfByName
    simp only [h]
  · intro info h hne
    unfold makeDfByName
    simp only [h]
    rw [if_neg hne]

/-- C6: the legacy path of `make_df` (mapping base instead of a string name)
always emits the deprecation warning and still produces a result; the result
is built from a copy so the caller's base object is unchanged after the
call; and on key collision between base and the keyword overrides the
override values win. -/
theorem deprecated_make_df_props (MI MA : Registry)
    (base kwargs : List (String × ColData))
    (hnd : (kwargs.map Prod.fst).Nodup) :
    (make_df MI MA (.byBase base) kwargs).1 = [.warn deprecationMsg] ∧
    (deprecatedMakeDf base kwargs).2.1 = base ∧
    (∀ k v, List.lookup k kwargs = some v →
      List.lookup k (dictUpdate base kwargs) = some v) ∧
    (make_df MI MA (.byBase base) kwargs).2 =
      pdDataFrame (dictUpdate base kwargs) none := by
  refine ⟨rfl, rfl, ?_, rfl⟩
  intro k v hv
  rw [lookup_dictUpdate kwargs base k hnd, hv]
  rfl

/-- C7: when two columns used by `make_df` carry sequences of different
lengths, the call returns the length-mismatch `ValueError`, and the returned
value is exactly what the underlying data-frame constructor produces on the
assembled arguments — `make_df` adds no separate length check. -/
theorem make_df_length_mismatch (MI MA : Registry) (name : String)
    (info : ItemInfo) (data : List (String × ColData)) (c1 c2 : String)
    (vs1 vs2 : List Val)
    (hinfo : chainMapLookup MI MA name = some info)
    (hpar : info.ix_type = "par")
    (hc1 : c1 ∈ dfColumns info) (hc2 : c2 ∈ dfColumns info)
    (h1 : dataGet data c1 = .seq vs1) (h2 : dataGet data c2 = .seq vs2)
    (hne : vs1.length ≠ vs2.length) :
    makeDfByName MI MA name data =
      .error (.valueError "All arrays must be of the same length") ∧
    makeDfByName MI MA name data =
      pdDataFrame (argsData info data) (argsIndex info data) := by
  have heq := makeDfByName_eq_constructor MI MA name info data hinfo hpar
  refine ⟨?_, heq⟩
  rw [heq]
  have hm1 : vs1.length ∈ seqLengths (argsData info data) :=
    (mem_seqLengths_argsData info data _).mpr ⟨c1, hc1, vs1, h1, rfl⟩
  have hm2 : vs2.length ∈ seqLengths (argsData info data) :=
    (mem_seqLengths_argsData info data _).mpr ⟨c2, hc2, vs2, h2, rfl⟩
  cases hsl : seqLengths (argsData info data) with
  | nil =>
      rw [hsl] at hm1
      exact absurd hm1 (List.not_mem_nil _)
  | cons L rest =>
      refine pdDataFrame_mismatch _ _ L rest hsl ?_
      by_contra hcon
      have hall := List.all_eq_true.mp (Bool.of_not_eq_false hcon)
      have hone : ∀ n ∈ L :: rest, n = L := by
        intro n hn
        rcases List.mem_cons.mp hn with h | h
        · exact h
        · exact of_decide_eq_true (hall n h)
      rw [hsl] at hm1 hm2
      exact hne ((hone _ hm1).trans (hone _ hm2).symm)

/-- C8: the string-name path of `make_df` performs no side effects — its
effect trace is empty — and it is a deterministic function of its inputs
and the two registries: identical calls return identical tables. -/
theorem make_df_pure (MI MA : Registry) (name : String)
    (data : List (String × ColData)) :
    (make_df MI MA (.byName name) data).1 = [] ∧
    make_df MI MA (.byName name) data = make_df MI MA (.byName name) data :=
  ⟨rfl, rfl⟩

/-- C3: when the table obtained by merging the stored rows with the new
dimension values contains a missing cell, `expand_dims` raises the
incomplete-data assertion error before any store mutation: its effect trace
holds only the initial read — no transaction, remove, re-init, or insert. -/
theorem expand_dims_incomplete_no_mutation (MI MA : Registry)
    (stored : StoredPar) (name : String) (data : List (String × ColData))
    (df : DataFrame)
    (hnodup : ∀ q ∈ data, List.lookup q.1 (storedKwargs stored) = none)
    (hok : makeDfByName MI MA name (storedKwargs stored ++ data) = .ok df)
    (hna : dfHasNa df = true) :
    expand_dims MI MA stored name data =
      ([.readPar name],
        .error (.assertionError "Expanded data are incomplete")) := by
  have hfind :
      (data.find? fun q => (List.lookup q.1 (storedKwargs stored)).isSome)
        = none := by
    rw [List.find?_eq_none]
    intro q hq
    simp [hnodup q hq]
  unfold expand_dims
  simp [hfind, hok, hna]

/-- C4: when `expand_dims` passes validation and the name is in
`MESSAGE_ITEMS`, exactly three store mutations are issued in order — remove
the stored data, re-initialize the schema, insert the expanded table — all
between the opening and the commit of a single transaction scope. -/
theorem expand_dims_transaction_steps (MI MA : Registry)
    (stored : StoredPar) (name : String) (data : List (String × ColData))
    (df : DataFrame) (info : ItemInfo)
    (hnodup : ∀ q ∈ data, List.lookup q.1 (storedKwargs stored) = none)
    (hok : makeDfByName MI MA name (storedKwargs stored ++ data) = .ok df)
    (hcomplete : dfHasNa df = false)
    (hmi : List.lookup name MI = some info) :
    expand_dims MI MA stored name data =
      ([.readPar name, .transactBegin ("expand_dims(" ++ name ++ ", …)"),
        .removePar name, .initItems name, .addPar name, .transactCommit],
        .ok ()) := by
  have hfind :
      (data.find? fun q => (List.lookup q.1 (storedKwargs stored)).isSome)
        = none := by
    rw [List.find?_eq_none]
    intro q hq
    simp [hnodup q hq]
  unfold expand_dims
  simp [hfind, hok, hcomplete, hmi]

/-- C9: when a keyword passed to `expand_dims` has the same name as a column
already present in the stored parameter data, the call fails with the
duplicate-keyword `TypeError` as the merged `make_df` call is formed —
before validation and before the transaction, with no store mutation. -/
theorem expand_dims_duplicate_column (MI MA : Registry)
    (stored : StoredPar) (name : String) (data : List (String × ColData))
    (hdup : ∃ q ∈ data, (List.lookup q.1 (storedKwargs stored)).isSome = true) :
    ∃ k, expand_dims MI MA stored name data =
      ([.readPar name],
        .error (.typeError
          ("make_df() got multiple values for keyword argument " ++ k))) := by
  have hne :
      (data.find? fun q => (List.lookup q.1 (storedKwargs stored)).isSome)
        ≠ none := by
    rw [Ne, List.find?_eq_none]
    push_neg
    obtain ⟨q, hq, h⟩ := hdup
    exact ⟨q, hq, by simp [h]⟩
  obtain ⟨q, hq⟩ := Option.ne_none_iff_exists'.mp hne
  refine ⟨q.1, ?_⟩
  unfold expand_dims
  simp only [hq]

/-- C10: for a name present only in `MACRO_ITEMS`, augmentation and
validation succeed through the combined lookup, but re-initialization looks
the name up in `MESSAGE_ITEMS` alone, so a `KeyError` is raised inside the
transaction scope after the remove step and before the re-init and insert
steps. -/
theorem expand_dims_macro_only_keyerror (MI MA : Registry)
    (stored : StoredPar) (name : String) (data : List (String × ColData))
    (df : DataFrame) (info : ItemInfo)
    (hnodup : ∀ q ∈ data, List.lookup q.1 (storedKwargs stored) = none)
    (hmi : List.lookup name MI = none)
    (hma : List.lookup name MA = some info)
    (hok : makeDfByName MI MA name (storedKwargs stored ++ data) = .ok df)
    (hcomplete : dfHasNa df = false) :
    expand_dims MI MA stored name data =
      ([.readPar name, .transactBegin ("expand_dims(" ++ name ++ ", …)"),
        .removePar name, .transactRollback],
        .error (.keyError name)) := by
  have hchain : chainMapLookup MI MA name = some info := by
    rw [chainMapLookup, hmi]
    exact hma
  have hfind :
      (data.find? fun q => (List.lookup q.1 (storedKwargs stored)).isSome)
        = none := by
    rw [List.find?_eq_none]
    intro q hq
    simp [hnodup q hq]
  unfold expand_dims
  simp [hfind, hok, hcomplete, hmi]

/-! Witness theorems: each instantiates its claim theorem at a concrete
input, discharging every hypothesis there. -/

/-- Witness for C1 at the "demand" schema with an ignored extra key and an
unsupplied "unit" column. -/
theorem make_df_columns_exact_witness :
    chainMapLookup regMI regMA "demand" = some infoNode ∧
    infoNode.ix_type = "par" ∧
    makeDfByName regMI regMA "demand" data1 = .ok df1 ∧
    (df1.cols.map Prod.fst = dfColumns infoNode ∧
      (∀ c ∈ dfColumns infoNode, List.lookup c data1 = none →
        ∃ vs, List.lookup c df1.cols = some vs ∧ ∀ v ∈ vs, v = Val.vnone) ∧
      Val.vnone ≠ Val.vint 0 ∧ Val.vnone ≠ Val.vstr "") :=
  ⟨rfl, rfl, rfl,
    make_df_columns_exact regMI regMA "demand" infoNode data1 df1 rfl rfl rfl⟩

/-- Witness for C2: an all-scalar call giving one row, and a mixed call with
a two-element sequence giving two broadcast rows. -/
theorem make_df_broadcast_witness :
    chainMapLookup regMI regMA "demand" = some infoNode ∧
    infoNode.ix_type = "par" ∧
    (∀ c ∈ dfColumns infoNode, is_scalar (dataGet data2s c) = true) ∧
    makeDfByName regMI regMA "demand" data2s =
      .ok ⟨(dfColumns infoNode).map fun c =>
        (c, broadcastCol (dataGet data2s c) 1)⟩ ∧
    (∃ c ∈ dfColumns infoNode, is_scalar (dataGet data2q c) = false) ∧
    makeDfByName regMI regMA "demand" data2q =
      .ok ⟨(dfColumns infoNode).map fun c =>
        (c, broadcastCol (dataGet data2q c) 2)⟩ :=
  have hlen : ∀ c ∈ dfColumns infoNode, ∀ vs,
      dataGet data2q c = .seq vs → vs.length = 2 := by
    intro c hc vs h
    fin_cases hc
    · rw [show dataGet data2q "node" =
          ColData.seq [Val.vstr "a", Val.vstr "b"] from rfl] at h
      injection h with h
      rw [← h]
      rfl
    · rw [show dataGet data2q "value" =
          ColData.scalar (Val.vint 5) from rfl] at h
      exact ColData.noConfusion h
    · rw [show dataGet data2q "unit" = ColData.scalar Val.vnone from rfl] at h
      exact ColData.noConfusion h
  ⟨rfl, rfl, by decide,
    (make_df_broadcast regMI regMA "demand" infoNode data2s rfl rfl).1 (by decide),
    by decide,
    ((make_df_broadcast regMI regMA "demand" infoNode data2q rfl rfl).2 2
      (by decide) hlen).1⟩

/-- Witness for C3: the stored data lack the "unit" column, so the merged
table has a missing cell and only the read effect is issued. -/
theorem expand_dims_incomplete_no_mutation_witness :
    (∀ q ∈ ([] : List (String × ColData)),
      List.lookup q.1 (storedKwargs stored3) = none) ∧
    makeDfByName regMI regMA "demand" (storedKwargs stored3 ++ []) = .ok df3 ∧
    dfHasNa df3 = true ∧
    expand_dims regMI regMA stored3 "demand" [] =
      ([.readPar "demand"],
        .error (.assertionError "Expanded data are incomplete")) :=
  ⟨by decide, rfl, rfl,
    expand_dims_incomplete_no_mutation regMI regMA stored3 "demand" [] df3
      (by decide) rfl rfl⟩

/-- Witness for C4: complete stored data under a name present in the primary
registry, giving the full remove / re-init / insert trace in one
transaction. -/
theorem expand_dims_transaction_steps_witness :
    (∀ q ∈ ([] : List (String × ColData)),
      List.lookup q.1 (storedKwargs stored4) = none) ∧
    makeDfByName regMI regMA "demand" (storedKwargs stored4 ++ []) = .ok df4 ∧
    dfHasNa df4 = false ∧
    List.lookup "demand" regMI = some infoNode ∧
    expand_dims regMI regMA stored4 "demand" [] =
      ([.readPar "demand", .transactBegin ("expand_dims(" ++ "demand" ++ ", …)"),
        .removePar "demand", .initItems "demand", .addPar "demand",
        .transactCommit], .ok ()) :=
  ⟨by decide, rfl, rfl, rfl,
    expand_dims_transaction_steps regMI regMA stored4 "demand" [] df4 infoNode
      (by decide) rfl rfl rfl⟩

/-- Witness for C5 at three names: "demand" (in both registries, primary
wins), "gdp_calibrate" (secondary fallback), "missing" (not found), and
"OBJ" (wrong kind). -/
theorem make_df_registry_resolution_witness :
    List.lookup "demand" regMI = some infoNode ∧
    chainMapLookup regMI regMA "demand" = some infoNode ∧
    List.lookup "gdp_calibrate" regMI = none ∧
    chainMapLookup regMI regMA "gdp_calibrate" =
      List.lookup "gdp_calibrate" regMA ∧
    chainMapLookup regMI regMA "missing" = none ∧
    makeDfByName regMI regMA "missing" [] =
      .error (.valueError ("missing" ++ " is not a MESSAGE or MACRO parameter")) ∧
    chainMapLookup regMI regMA "OBJ" = some infoVar ∧
    infoVar.ix_type ≠ "par" ∧
    makeDfByName regMI regMA "OBJ" [] =
      .error (.valueError ("OBJ" ++ " is " ++ infoVar.ix_type ++ ", not par")) :=
  ⟨rfl,
    (make_df_registry_resolution regMI regMA "demand" []).1 infoNode rfl,
    rfl,
    (make_df_registry_resolution regMI regMA "gdp_calibrate" []).2.1 rfl,
    rfl,
    (make_df_registry_resolution regMI regMA "missing" []).2.2.1 rfl,
    rfl,
    by decide,
    (make_df_registry_resolution regMI regMA "OBJ" []).2.2.2 infoVar rfl
      (by decide)⟩

/-- Witness for C6: a base and overrides colliding on "unit"; the warning is
emitted, the caller's base is unchanged, and the override value wins. -/
theorem deprecated_make_df_props_witness :
    (kwargs6.map Prod.fst).Nodup ∧
    (make_df regMI regMA (.byBase base6) kwargs6).1 = [.warn deprecationMsg] ∧
    (deprecatedMakeDf base6 kwargs6).2.1 = base6 ∧
    List.lookup "unit" (dictUpdate base6 kwargs6) =
      some (.scalar (.vstr "-")) ∧
    (make_df regMI regMA (.byBase base6) kwargs6).2 =
      pdDataFrame (dictUpdate base6 kwargs6) none :=
  have h := deprecated_make_df_props regMI regMA base6 kwargs6 (by decide)
  ⟨by decide, h.1, h.2.1, h.2.2.1 "unit" (.scalar (.vstr "-")) rfl, h.2.2.2⟩

/-- Witness for C7: sequences of length one and two under "node" and
"value". -/
theorem make_df_length_mismatch_witness :
    chainMapLookup regMI regMA "demand" = some infoNode ∧
    infoNode.ix_type = "par" ∧
    "node" ∈ dfColumns infoNode ∧
    "value" ∈ dfColumns infoNode ∧
    dataGet data7 "node" = .seq [.vstr "a"] ∧
    dataGet data7 "value" = .seq [.vint 1, .vint 2] ∧
    [Val.vstr "a"].length ≠ [Val.vint 1, Val.vint 2].length ∧
    makeDfByName regMI regMA "demand" data7 =
      .error (.valueError "All arrays must be of the same length") :=
  ⟨rfl, rfl, by decide, by decide, rfl, rfl, by decide,
    (make_df_length_mismatch regMI regMA "demand" infoNode data7 "node" "value"
      [.vstr "a"] [.vint 1, .vint 2] rfl rfl (by decide) (by decide) rfl rfl
      (by decide)).1⟩

/-- Witness for C9: the keyword "node" collides with a stored column; the
call fails with the duplicate-keyword error and only the read effect. -/
theorem expand_dims_duplicate_column_witness :
    (∃ q ∈ data9, (List.lookup q.1 (storedKwargs stored9)).isSome = true) ∧
    (∃ k, expand_dims regMI regMA stored9 "demand" data9 =
      ([.readPar "demand"],
        .error (.typeError
          ("make_df() got multiple values for keyword argument " ++ k)))) ∧
    expand_dims regMI regMA stored9 "demand" data9 =
      ([.readPar "demand"],
        .error (.typeError
          "make_df() got multiple values for keyword argument node")) :=
  ⟨by decide,
    expand_dims_duplicate_column regMI regMA stored9 "demand" data9 (by decide),
    rfl⟩

/-- Witness for C10: "gdp_calibrate" is only in the secondary registry, so
after validation the trace shows the transaction opening, the remove step,
and then the `KeyError` rollback. -/
theorem expand_dims_macro_only_keyerror_witness :
    (∀ q ∈ ([] : List (String × ColData)),
      List.lookup q.1 (storedKwargs stored4) = none) ∧
    List.lookup "gdp_calibrate" regMI = none ∧
    List.lookup "gdp_calibrate" regMA = some infoNode ∧
    makeDfByName regMI regMA "gdp_calibrate" (storedKwargs stored4 ++ []) =
      .ok df4 ∧
    dfHasNa df4 = false ∧
    expand_dims regMI regMA stored4 "gdp_calibrate" [] =
      ([.readPar "gdp_calibrate",
        .transactBegin ("expand_dims(" ++ "gdp_calibrate" ++ ", …)"),
        .removePar "gdp_calibrate", .transactRollback],
        .error (.keyError "gdp_calibrate")) :=
  ⟨by decide, rfl, rfl, rfl, rfl,
    expand_dims_macro_only_keyerror regMI regMA stored4 "gdp_calibrate" [] df4
      infoNode (by decide) rfl rfl rfl rfl⟩

end MessageIx
